import Mathlib

/-!
Verification of `Platforms/EEBBK/s6Pkg/DeviceBuild.py` (Mu-Qcom).

The Python file is a settings/adapter module for the edk2 "stuart" build
framework.  We embed its functions shallowly:

* the module-level constants of `CommonPlatform`;
* `SettingsManager.SetArchitectures`, `FilterPackagesToTest`,
  `GetPlatformDscAndConfig`, `GetRequiredSubmodules`;
* `PlatformBuilder.RetrieveCommandLineOptions`, `GetPackagesPath`,
  `SetPlatformEnv`;
* the `__main__` argument parsing and dispatch.

Filesystem state is a predicate `String → Bool` (isfile / exists), the
external build-environment store is a map `String → Option String`, and
Python exceptions become `Except`.
-/

/-- Python: `ArchSupported = ("AARCH64")`.  Note: parentheses without a
trailing comma do not build a tuple, so this is the *string* `"AARCH64"`,
not a one-element tuple. -/
def archSupported : String := "AARCH64"

/-- Python: `PackagesSupported = ("s6Pkg")` — likewise a string. -/
def packagesSupported : String := "s6Pkg"

/-- Python: `DscPath = "s6Pkg/s6.dsc"`. -/
def dscRelPath : String := "s6Pkg/s6.dsc"

/-- Python: `CommonPlatform.PackagesPath`, a genuine 10-element tuple. -/
def packagesPath : List String :=
  [ "Platforms/Lenovo"
  , "Common/Mu"
  , "Common/Mu_OEM_Sample"
  , "Common/Mu_Tiano_Plus"
  , "Features/DFCI"
  , "Mu_Basecore"
  , "Silicon/Arm/Mu_Tiano"
  , "Silicon/Qualcomm"
  , "Silicon/Silicium"
  , "Silicium-ACPI/SoCs/Qualcomm" ]

/-- Python `os.path.join(a, b)` for the two-argument calls used in the file
(posix rules: an absolute second component replaces the first). -/
def pathJoin (a b : String) : String :=
  if b.startsWith "/" then b
  else if a = "" then b
  else if a.endsWith "/" then a ++ b
  else a ++ "/" ++ b

/-- `SettingsManager.SetArchitectures`.

Python computes `set(list_of_requested_architectures) -
set(self.GetArchitecturesSupported())`.  Because `GetArchitecturesSupported`
returns the *string* `"AARCH64"`, `set` of it is the set of its six distinct
single-character strings.  On success the request is recorded
(`self.ActualArchitectures`), which we return in `Except.ok`. -/
def setArchitectures (reqs : List String) : Except String (List String) :=
  let supportedSet : List String := (archSupported.toList.map (fun c => String.mk [c])).dedup
  let unsupported : List String := reqs.dedup.filter (fun a => !(supportedSet.contains a))
  if unsupported.length > 0 then
    Except.error ("Unsupported Architecture Requested: " ++ String.intercalate " " unsupported)
  else
    Except.ok reqs

/-- Index of the last occurrence of `c` in `l`, or `-1` when absent —
Python `str.rfind`. -/
def rfindChar (l : List Char) (c : Char) : Int :=
  ((List.range l.length).filter (fun i => l.getD i ' ' == c)).foldl
    (fun acc i => max acc (Int.ofNat i)) (-1)

/-- Python `os.path.splitext` (posix): split off the extension at the last
dot of the final path component, except that leading dots of that component
never start an extension. -/
def splitext (p : String) : String × String :=
  let l := p.toList
  let sepIndex := rfindChar l '/'
  let dotIndex := rfindChar l '.'
  if sepIndex < dotIndex then
    let hasNonDot := ((List.range l.length).filter
      (fun i => sepIndex < Int.ofNat i && Int.ofNat i < dotIndex)).any
      (fun i => l.getD i ' ' != '.')
    if hasNonDot then
      (String.mk (l.take dotIndex.toNat), String.mk (l.drop dotIndex.toNat))
    else (p, "")
  else (p, "")

/-- Python values as they appear in the membership test
`os.path.splitext(f) not in [".txt", ".md"]`: a `tuple` is never `==` to a
`str`, whatever their contents. -/
inductive PyVal where
  | str : String → PyVal
  | tuple : String → String → PyVal
deriving DecidableEq, Repr

/-- Does `pat` occur as a contiguous sublist of `l`? -/
def containsSub (pat : List Char) : List Char → Bool
  | [] => pat.isEmpty
  | c :: rest => pat.isPrefixOf (c :: rest) || containsSub pat rest

/-- Python `"pat" in f` substring test. -/
def pyInStr (pat f : String) : Bool :=
  containsSub pat.toList f.toList

/-- The test `os.path.splitext(f) not in [".txt", ".md"]` exactly as
written: the pair returned by `splitext` is compared against the two
string literals. -/
def splitextNotInTxtMd (f : String) : Bool :=
  !([PyVal.str ".txt", PyVal.str ".md"].contains
      (PyVal.tuple (splitext f).1 (splitext f).2))

/-- The `for f in changedFilesList` loop body of `FilterPackagesToTest`:
returns `possible` on the first hit (`break`), the empty list if the loop
finishes without a hit. -/
def filterGo (possible : List String) : List String → List String
  | [] => []
  | f :: rest =>
    if pyInStr "BaseTools" f && splitextNotInTxtMd f then possible
    else if pyInStr "platform-build-run-steps.yml" f then possible
    else filterGo possible rest

/-- `SettingsManager.FilterPackagesToTest` on list values
(`possible_packages = potentialPackagesList.copy()` copies the value). -/
def filterPackagesToTest (changedFilesList potentialPackagesList : List String) :
    List String :=
  filterGo potentialPackagesList changedFilesList

/-- `SettingsManager.GetPlatformDscAndConfig`: check the joined DSC path
with `os.path.isfile`; on failure raise
`FileNotFoundError(f"DSC file missing: {dsc_path}")`, on success return
`(CommonPlatform.DscPath, {})` (the *relative* path and an empty dict,
modelled as an empty association list).  `ws` is `CommonPlatform.WorkspaceRoot`
(computed at runtime from `__file__`), `isfile` the filesystem. -/
def getPlatformDscAndConfig (ws : String) (isfile : String → Bool) :
    Except String (String × List (String × String)) :=
  let dsc_path := pathJoin ws dscRelPath
  if !(isfile dsc_path) then
    Except.error ("DSC file missing: " ++ dsc_path)
  else
    Except.ok (dscRelPath, [])

/-- Modelled from the spec: the required-submodule descriptor of the external
setup framework (`edk2toolext.invocables.edk2_setup.RequiredSubmodule`), a
record of relative path, optional flag and recursive flag; `recursive`
defaults to `true` when the construction omits it. -/
structure RequiredSubmodule where
  path : String
  optional : Bool
  recursive : Bool := true
deriving DecidableEq, Repr

/-- The fixed eight-element list built by `GetRequiredSubmodules`. -/
def requiredSubmodulesList : List RequiredSubmodule :=
  [ { path := "Binaries", optional := true, recursive := false }
  , { path := "Common/Mu", optional := true }
  , { path := "Common/Mu_OEM_Sample", optional := true }
  , { path := "Common/Mu_Tiano_Plus", optional := true }
  , { path := "Features/DFCI", optional := true }
  , { path := "Mu_Basecore", optional := true }
  , { path := "Silicon/Arm/Mu_Tiano", optional := true }
  , { path := "Silicium-ACPI", optional := true } ]

/-- `SettingsManager.GetRequiredSubmodules`: build the fixed list, then for
each entry check `os.path.exists` on its path and on `path/.git`, calling
`logging.error` on each failure; finally return the list.  `ex` is the
filesystem existence predicate; the collected log lines are returned
alongside the list. -/
def getRequiredSubmodules (ws : String) (ex : String → Bool) :
    List RequiredSubmodule × List String :=
  let required := requiredSubmodulesList
  let logs := required.foldl
    (fun acc submodule =>
      let sub_path := pathJoin ws submodule.path
      if !(ex sub_path) then acc ++ ["Submodule path missing: " ++ sub_path]
      else if !(ex (pathJoin sub_path ".git")) then
        acc ++ ["Submodule not initialized: " ++ sub_path]
      else acc)
    []
  (required, logs)

/-- Modelled from the spec: the external build-environment key/value store
(`shell_environment` of the external toolchain), "an external key/value
store … into which this file writes a fixed set of named values".
`SetValue` writes a value, `GetValue` reads one back. -/
def setValue (env : String → Option String) (k : String) (v : Option String) :
    String → Option String :=
  fun q => if q = k then v else env q

/-- `env.GetValue(key, default)` with an explicit default. -/
def getValueD (env : String → Option String) (k dflt : String) : String :=
  (env k).getD dflt

/-- The fixed table of `env.SetValue` writes performed by
`PlatformBuilder.SetPlatformEnv` once the DSC check has passed, in source
order; the three `BLD_*_FD_*` entries pass through the current
`FD_BASE`, `FD_SIZE` and `FD_BLOCKS` values. -/
def platformEnvWrites (env : String → Option String) : String → Option String :=
    let env := setValue env "PRODUCT_NAME" (some "s6")
    let env := setValue env "ACTIVE_PLATFORM" (some dscRelPath)
    let env := setValue env "TARGET_ARCH" (some "AARCH64")
    let env := setValue env "TOOL_CHAIN_TAG" (some "CLANGPDB")
    let env := setValue env "EMPTY_DRIVE" (some "FALSE")
    let env := setValue env "RUN_TESTS" (some "FALSE")
    let env := setValue env "SHUTDOWN_AFTER_RUN" (some "FALSE")
    let env := setValue env "BLD_*_BUILDID_STRING" (some "Unknown")
    let env := setValue env "BUILDREPORTING" (some "TRUE")
    let env := setValue env "BUILDREPORT_TYPES"
      (some "PCD DEPEX FLASH BUILD_FLAGS LIBRARY FIXED_ADDRESS HASH")
    let env := setValue env "BLD_*_MEMORY_PROTECTION" (some "TRUE")
    let env := setValue env "BLD_*_SHIP_MODE" (some "FALSE")
    let env := setValue env "BLD_*_FD_BASE" (env "FD_BASE")
    let env := setValue env "BLD_*_FD_SIZE" (env "FD_SIZE")
    let env := setValue env "BLD_*_FD_BLOCKS" (env "FD_BLOCKS")
    env

/-- `PlatformBuilder.SetPlatformEnv`: verify `os.path.isfile` on the joined
DSC path, raising `FileNotFoundError("Critical DSC file missing")` when it
fails; otherwise perform the fixed writes of `platformEnvWrites` and
return 0 together with the updated store. -/
def setPlatformEnv (ws : String) (isfile : String → Bool)
    (env : String → Option String) :
    Except String (Nat × (String → Option String)) :=
  let dsc_path := pathJoin ws dscRelPath
  if !(isfile dsc_path) then
    Except.error "Critical DSC file missing"
  else
    Except.ok (0, platformEnvWrites env)

/-- Python `str.upper()` (the values involved are ASCII). -/
def pyUpper (s : String) : String :=
  String.mk (s.toList.map Char.toUpper)

/-- `PlatformBuilder.RetrieveCommandLineOptions`: raise unless
`args.build_arch.upper() == "AARCH64"`. -/
def retrieveCommandLineOptions (build_arch : String) : Except String Unit :=
  if pyUpper build_arch != "AARCH64" then
    Except.error "Invalid Arch Specified.  Please see comments in DeviceBuild.py::PlatformBuilder::AddCommandLineOptions"
  else
    Except.ok ()

/-- `PlatformBuilder.GetPackagesPath`: start from the current
`FEATURE_CONFIG_PATH` value (default `""`), then `result.append(a)` for each
entry of `CommonPlatform.PackagesPath`. -/
def getPackagesPathBuilder (env : String → Option String) : List String :=
  let result := [getValueD env "FEATURE_CONFIG_PATH" ""]
  packagesPath.foldl (fun acc a => acc ++ [a]) result

/-! ### Heap-level model of `FilterPackagesToTest`

Python lists are mutable heap objects.  To state what the function does to
its *arguments* (rather than to their values) we model a heap as a list of
cells, a reference as an index, and allocation as appending a cell. -/

/-- The loop of `FilterPackagesToTest` at the level of references: the
variable `build_these_packages` starts at the fresh empty list `buildRef`
and is rebound to `possRef` (the copy) on the first hit. -/
def filterGoRef (possRef buildRef : Nat) : List String → Nat
  | [] => buildRef
  | f :: rest =>
    if pyInStr "BaseTools" f && splitextNotInTxtMd f then possRef
    else if pyInStr "platform-build-run-steps.yml" f then possRef
    else filterGoRef possRef buildRef rest

/-- `FilterPackagesToTest` on the heap: allocate `build_these_packages = []`,
read the arguments, allocate `possible_packages = potentialPackagesList.copy()`,
run the loop (which only reads), and return the final heap and the reference
the result variable holds. -/
def filterPackagesToTestHeap (h : List (List String))
    (changedRef potRef : Nat) : List (List String) × Nat :=
  let buildRef := h.length
  let h1 := h ++ [[]]
  let changed := (h1[changedRef]?).getD []
  let pot := (h1[potRef]?).getD []
  let possRef := h1.length
  let h2 := h1 ++ [pot]
  (h2, filterGoRef possRef buildRef changed)

/-! ### The `__main__` block -/

/-- Which of the three external invocables the dispatcher calls. -/
inductive Invocable where
  | setup | update | build
deriving DecidableEq, Repr

/-- Modelled from the spec: Python `argparse` parsing of the `__main__`
parser, whose only arguments are the mutually exclusive `store_true` flags
`--update`/`--UPDATE` and `--setup`/`--SETUP` ("parse exactly one of three
mutually exclusive modes from the command line").  Scanning left to right,
a flag of the group errors out when the other flag was already seen;
unrecognised tokens are returned as the remaining arguments
(`parse_known_args`). -/
def parseKnownArgs : List String → Bool → Bool → List String →
    Except String ((Bool × Bool) × List String)
  | [], setup, update, rem => Except.ok ((setup, update), rem.reverse)
  | t :: rest, setup, update, rem =>
    if t = "--update" ∨ t = "--UPDATE" then
      if setup then
        Except.error "argument --update/--UPDATE: not allowed with argument --setup/--SETUP"
      else parseKnownArgs rest setup true rem
    else if t = "--setup" ∨ t = "--SETUP" then
      if update then
        Except.error "argument --setup/--SETUP: not allowed with argument --update/--UPDATE"
      else parseKnownArgs rest true update rem
    else parseKnownArgs rest setup update (t :: rem)

/-- The `__main__` dispatch: parse the mode flags, then invoke setup when
`args.setup`, update when `args.update`, and the platform build otherwise.
A parse error aborts before any invocable is reached. -/
def mainDispatch (argv : List String) : Except String Invocable :=
  match parseKnownArgs argv false false [] with
  | Except.error e => Except.error e
  | Except.ok ((setup, update), _remaining) =>
    if setup then Except.ok Invocable.setup
    else if update then Except.ok Invocable.update
    else Except.ok Invocable.build

/-! ## Lemmas -/

/-- Whatever the path, `splitext` returns a pair, and a Python pair is never
`==` to a string: the test `os.path.splitext(f) not in [".txt", ".md"]` is
identically true. -/
theorem splitextNotInTxtMd_eq_true (f : String) : splitextNotInTxtMd f = true := rfl

/-- The condition under which one changed path triggers a full rebuild:
because `splitextNotInTxtMd` is identically true, only the two substring
tests matter. -/
def changeHit (f : String) : Bool :=
  pyInStr "BaseTools" f || pyInStr "platform-build-run-steps.yml" f

theorem filterGo_eq (possible : List String) :
    ∀ changed : List String,
      filterGo possible changed = if changed.any changeHit then possible else [] := by
  intro changed
  induction changed with
  | nil => rfl
  | cons f rest ih =>
    simp only [filterGo, splitextNotInTxtMd_eq_true, Bool.and_true, List.any_cons,
      changeHit]
    by_cases hb : pyInStr "BaseTools" f = true
    · simp [hb]
    · by_cases hy : pyInStr "platform-build-run-steps.yml" f = true
      · simp [hb, hy]
      · simp only [Bool.not_eq_true] at hb hy
        simp [hb, hy, ih, changeHit]

/-! ## C1 -/

/-- C1: `SetArchitectures` is claimed to accept the request `{"AARCH64"}`
and to reject `{"X64"}` and `{"AARCH64","X64"}`.  The rejections hold, but
the acceptance does not: `ArchSupported` is the string `"AARCH64"` (no
tuple comma), so `set()` of it is the set of its characters, and the full
string `"AARCH64"` is itself reported as unsupported.  Only requests made
of single-character architecture names such as `"A"` are accepted. -/
theorem c1_setArchitectures_rejects_aarch64 :
    setArchitectures ["AARCH64"] =
      Except.error "Unsupported Architecture Requested: AARCH64" ∧
    (setArchitectures ["X64"]).isOk = false ∧
    (setArchitectures ["AARCH64", "X64"]).isOk = false ∧
    (setArchitectures ["A"]).isOk = true :=
  ⟨rfl, rfl, rfl, rfl⟩

/-! ## C2 -/

/-- C2 counterexample: with changed files `["BaseTools/readme.md"]` and the
non-empty candidate list `["PkgA"]`, `FilterPackagesToTest` returns
`["PkgA"]`, not the empty list the claim requires. -/
theorem c2_counterexample :
    filterPackagesToTest ["BaseTools/readme.md"] ["PkgA"] = ["PkgA"] ∧
    (["PkgA"] : List String) ≠ [] := ⟨rfl, by decide⟩

/-- C2 amended: for every candidate-package list, `FilterPackagesToTest`
with changed files `["BaseTools/readme.md"]` returns the full candidate
list — `os.path.splitext` yields a pair, which is never `==` to the string
`".txt"` or `".md"`, so the extension exclusion never fires even though the
extension here is `.md`. -/
theorem c2_amended_basetools_md_selects_all (cands : List String) :
    filterPackagesToTest ["BaseTools/readme.md"] cands = cands ∧
    splitext "BaseTools/readme.md" = ("BaseTools/readme", ".md") :=
  ⟨rfl, rfl⟩

/-! ## C5 -/

/-- C5 counterexample: `"BaseTools/notes.txt"` has extension `.txt`, and no
changed path contains `"platform-build-run-steps.yml"`, so the claim
requires the empty list; the code returns the full candidate list. -/
theorem c5_counterexample :
    filterPackagesToTest ["BaseTools/notes.txt"] ["PkgA", "PkgB"] = ["PkgA", "PkgB"] ∧
    filterPackagesToTest ["BaseTools/notes.txt"] ["PkgA", "PkgB"] ≠ [] ∧
    splitext "BaseTools/notes.txt" = ("BaseTools/notes", ".txt") :=
  ⟨rfl, by decide, rfl⟩

/-- C5 amended: `FilterPackagesToTest` returns the full candidate list
exactly when some changed path contains `"BaseTools"` (regardless of its
extension — the `.txt`/`.md` exclusion compares a pair against strings and
never fires) or contains `"platform-build-run-steps.yml"`, and the empty
list otherwise; in particular the two examples of the claim hold. -/
theorem c5_filter_characterisation :
    (∀ changed potential : List String,
      filterPackagesToTest changed potential =
        if changed.any changeHit then potential else []) ∧
    filterPackagesToTest ["BaseTools/foo.c"] ["PkgA", "PkgB"] = ["PkgA", "PkgB"] ∧
    filterPackagesToTest ["unrelated/file.c"] ["PkgA", "PkgB"] = [] :=
  ⟨fun changed potential => filterGo_eq potential changed, rfl, rfl⟩

/-! ## C6 -/

/-- C6: `GetRequiredSubmodules` returns the same fixed eight-element list
whatever the filesystem looks like; a missing directory or missing `.git`
entry only adds a log line and never changes the result (the embedding is
total — nothing is raised). -/
theorem c6_getRequiredSubmodules_fixed (ws : String) (ex ex2 : String → Bool) :
    (getRequiredSubmodules ws ex).1 = requiredSubmodulesList ∧
    (getRequiredSubmodules ws ex).1 = (getRequiredSubmodules ws ex2).1 ∧
    requiredSubmodulesList.length = 8 :=
  ⟨rfl, rfl, rfl⟩

/-! ## C7 -/

/-- C7 counterexample: `"aarch64"` is not the string `"AARCH64"`, yet
`RetrieveCommandLineOptions` accepts it, because the code upper-cases the
value before comparing. -/
theorem c7_counterexample :
    retrieveCommandLineOptions "aarch64" = Except.ok () ∧
    "aarch64" ≠ "AARCH64" := ⟨rfl, by decide⟩

/-- C7 amended: `RetrieveCommandLineOptions` accepts the `--arch` value
exactly when its upper-casing is `"AARCH64"` (a case-insensitive match,
`"AARCH64"` itself included), and raises for every other value; the check
is a pure test of the parsed value, performed before any
build-environment setup. -/
theorem c7_arch_check_case_insensitive (v : String) :
    (retrieveCommandLineOptions v).isOk = (pyUpper v == "AARCH64") := by
  unfold retrieveCommandLineOptions
  cases hb : pyUpper v == "AARCH64" <;> simp [bne, hb, Except.isOk, Except.toBool]

/-! ## C10 -/

/-- C10: `PlatformBuilder.GetPackagesPath` returns the current
`FEATURE_CONFIG_PATH` value (the empty string when unset) followed by the
ten static entries of `CommonPlatform.PackagesPath` in declared order. -/
theorem c10_getPackagesPath (env : String → Option String) :
    getPackagesPathBuilder env = getValueD env "FEATURE_CONFIG_PATH" "" :: packagesPath ∧
    packagesPath.length = 10 ∧
    (env "FEATURE_CONFIG_PATH" = none → getValueD env "FEATURE_CONFIG_PATH" "" = "") := by
  refine ⟨rfl, rfl, fun h => ?_⟩
  simp [getValueD, h]

/-- C10 witness: with `FEATURE_CONFIG_PATH` unset the returned list starts
with the empty string. -/
theorem c10_getPackagesPath_witness :
    getPackagesPathBuilder (fun _ => none) = "" :: packagesPath ∧
    getValueD (fun _ => none) "FEATURE_CONFIG_PATH" "" = "" := by
  refine ⟨(c10_getPackagesPath (fun _ => none)).1, (c10_getPackagesPath (fun _ => none)).2.2 rfl⟩

/-! ## C4 -/

/-- C4: `GetPlatformDscAndConfig` fails exactly when the joined DSC path is
not a file: it then raises `FileNotFoundError` with the joined path in the
message, and otherwise returns the pair of the relative DSC path and the
empty configuration. -/
theorem c4_getPlatformDscAndConfig_spec (ws : String) (isfile : String → Bool) :
    ((getPlatformDscAndConfig ws isfile).isOk = isfile (pathJoin ws dscRelPath)) ∧
    (isfile (pathJoin ws dscRelPath) = true →
      getPlatformDscAndConfig ws isfile = Except.ok (dscRelPath, [])) ∧
    (isfile (pathJoin ws dscRelPath) = false →
      getPlatformDscAndConfig ws isfile =
        Except.error ("DSC file missing: " ++ pathJoin ws dscRelPath)) := by
  unfold getPlatformDscAndConfig
  cases h : isfile (pathJoin ws dscRelPath) <;>
    simp [h, Except.isOk, Except.toBool]

/-- C4 witness: on a filesystem where every path is a file, the call
returns the relative DSC path with the empty configuration; on an empty
filesystem it raises with the joined path in the message. -/
theorem c4_getPlatformDscAndConfig_witness :
    getPlatformDscAndConfig "/ws" (fun _ => true) = Except.ok ("s6Pkg/s6.dsc", []) ∧
    getPlatformDscAndConfig "/ws" (fun _ => false) =
      Except.error ("DSC file missing: " ++ pathJoin "/ws" dscRelPath) :=
  ⟨(c4_getPlatformDscAndConfig_spec "/ws" (fun _ => true)).2.1 rfl,
   (c4_getPlatformDscAndConfig_spec "/ws" (fun _ => false)).2.2 rfl⟩

/-! ## C3 -/

/-- C3: `SetPlatformEnv` raises `FileNotFoundError` when the joined DSC
path is not a file, and otherwise returns 0 and an environment that
contains `PRODUCT_NAME = s6` and `TARGET_ARCH = AARCH64`. -/
theorem c3_setPlatformEnv_spec (ws : String) (isfile : String → Bool)
    (env : String → Option String) :
    (isfile (pathJoin ws dscRelPath) = false →
      setPlatformEnv ws isfile env = Except.error "Critical DSC file missing") ∧
    (isfile (pathJoin ws dscRelPath) = true →
      setPlatformEnv ws isfile env = Except.ok (0, platformEnvWrites env) ∧
      platformEnvWrites env "PRODUCT_NAME" = some "s6" ∧
      platformEnvWrites env "TARGET_ARCH" = some "AARCH64") := by
  unfold setPlatformEnv
  cases h : isfile (pathJoin ws dscRelPath) <;> simp [h]
  exact ⟨rfl, rfl⟩

/-- C3 witness: with the DSC file present the call succeeds with status 0
and the two product variables set; with it absent the call raises. -/
theorem c3_setPlatformEnv_witness :
    setPlatformEnv "/ws" (fun _ => true) (fun _ => none) =
      Except.ok (0, platformEnvWrites (fun _ => none)) ∧
    platformEnvWrites (fun _ => none) "PRODUCT_NAME" = some "s6" ∧
    platformEnvWrites (fun _ => none) "TARGET_ARCH" = some "AARCH64" ∧
    setPlatformEnv "/ws" (fun _ => false) (fun _ => none) =
      Except.error "Critical DSC file missing" := by
  have hok := (c3_setPlatformEnv_spec "/ws" (fun _ => true) (fun _ => none)).2 rfl
  have herr := (c3_setPlatformEnv_spec "/ws" (fun _ => false) (fun _ => none)).1 rfl
  exact ⟨hok.1, hok.2.1, hok.2.2, herr⟩

/-! ## C8 -/

/-- A member of a list with a head different from it is a member of the
tail. -/
theorem mem_rest_of_ne {x t : String} {rest : List String}
    (hx : x ∈ t :: rest) (hne : t ≠ x) : x ∈ rest := by
  rcases List.mem_cons.mp hx with he | hm
  · exact absurd he.symm hne
  · exact hm

/-- Scanning the argument vector fails whenever the two flags of the
mutually exclusive group both occur (or one occurs with the other already
recorded). -/
theorem parseKnownArgs_conflict :
    ∀ (l : List String) (s u : Bool) (rem : List String),
      ((s = true ∧ "--update" ∈ l) ∨ (u = true ∧ "--setup" ∈ l) ∨
        ("--setup" ∈ l ∧ "--update" ∈ l)) →
      (parseKnownArgs l s u rem).isOk = false := by
  intro l
  induction l with
  | nil =>
    intro s u rem h
    simp at h
  | cons t rest ih =>
    intro s u rem h
    by_cases hup : t = "--update" ∨ t = "--UPDATE"
    · have hts : t ≠ "--setup" := by rcases hup with h1 | h1 <;> subst h1 <;> decide
      simp only [parseKnownArgs, if_pos hup]
      cases s with
      | true => simp [Except.isOk, Except.toBool]
      | false =>
        simp only [Bool.false_eq_true, if_false]
        apply ih
        rcases h with ⟨hs, _⟩ | ⟨_, hmem⟩ | ⟨hmem, _⟩
        · exact absurd hs (by simp)
        · exact Or.inr (Or.inl ⟨rfl, mem_rest_of_ne hmem hts⟩)
        · exact Or.inr (Or.inl ⟨rfl, mem_rest_of_ne hmem hts⟩)
    · by_cases hst : t = "--setup" ∨ t = "--SETUP"
      · have htu : t ≠ "--update" := by rcases hst with h1 | h1 <;> subst h1 <;> decide
        simp only [parseKnownArgs, if_neg hup, if_pos hst]
        cases u with
        | true => simp [Except.isOk, Except.toBool]
        | false =>
          simp only [Bool.false_eq_true, if_false]
          apply ih
          rcases h with ⟨_, hmem⟩ | ⟨hu, _⟩ | ⟨_, hmem⟩
          · exact Or.inl ⟨rfl, mem_rest_of_ne hmem htu⟩
          · exact absurd hu (by simp)
          · exact Or.inl ⟨rfl, mem_rest_of_ne hmem htu⟩
      · have hts : t ≠ "--setup" := fun he => hst (Or.inl he)
        have htu : t ≠ "--update" := fun he => hup (Or.inl he)
        simp only [parseKnownArgs, if_neg hup, if_neg hst]
        apply ih
        rcases h with ⟨hs, hmem⟩ | ⟨hu, hmem⟩ | ⟨hm1, hm2⟩
        · exact Or.inl ⟨hs, mem_rest_of_ne hmem htu⟩
        · exact Or.inr (Or.inl ⟨hu, mem_rest_of_ne hmem hts⟩)
        · exact Or.inr (Or.inr ⟨mem_rest_of_ne hm1 hts, mem_rest_of_ne hm2 htu⟩)

/-- C8: when the command line contains both `--setup` and `--update`,
argument parsing fails and the dispatcher reaches none of the three
invocables: `mainDispatch` produces no `Invocable` at all. -/
theorem c8_mutually_exclusive_rejected (argv : List String)
    (hs : "--setup" ∈ argv) (hu : "--update" ∈ argv) :
    ∀ inv : Invocable, mainDispatch argv ≠ Except.ok inv := by
  have h := parseKnownArgs_conflict argv false false []
    (Or.inr (Or.inr ⟨hs, hu⟩))
  intro inv hok
  unfold mainDispatch at hok
  cases hp : parseKnownArgs argv false false [] with
  | error e =>
    rw [hp] at hok
    simp at hok
  | ok v =>
    rw [hp] at h
    simp [Except.isOk, Except.toBool] at h

/-- C8 witness: the concrete invocation with both flags reaches no
invocable. -/
theorem c8_mutually_exclusive_witness :
    mainDispatch ["--setup", "--update"] ≠ Except.ok Invocable.setup ∧
    mainDispatch ["--setup", "--update"] ≠ Except.ok Invocable.update ∧
    mainDispatch ["--setup", "--update"] ≠ Except.ok Invocable.build :=
  ⟨c8_mutually_exclusive_rejected _ (by simp) (by simp) Invocable.setup,
   c8_mutually_exclusive_rejected _ (by simp) (by simp) Invocable.update,
   c8_mutually_exclusive_rejected _ (by simp) (by simp) Invocable.build⟩

/-! ## C9 -/

/-- The reference-level loop ends at the copy's reference on a hit and at
the fresh empty list's reference otherwise. -/
theorem filterGoRef_eq (possRef buildRef : Nat) (l : List String) :
    filterGoRef possRef buildRef l =
      if l.any changeHit then possRef else buildRef := by
  induction l with
  | nil => rfl
  | cons f rest ih =>
    simp only [filterGoRef, splitextNotInTxtMd_eq_true, Bool.and_true,
      List.any_cons, changeHit]
    by_cases hb : pyInStr "BaseTools" f = true
    · simp [hb]
    · by_cases hy : pyInStr "platform-build-run-steps.yml" f = true
      · simp [hb, hy]
      · simp only [Bool.not_eq_true] at hb hy
        simp [hb, hy, ih, changeHit]

/-- C9: on the heap, `FilterPackagesToTest` leaves both argument lists
untouched, and the reference it returns is neither argument — it is one of
the two freshly allocated cells (the copy or the empty list). -/
theorem c9_filter_frame (h : List (List String)) (cr pr : Nat)
    (hcr : cr < h.length) (hpr : pr < h.length) :
    (filterPackagesToTestHeap h cr pr).1[cr]? = h[cr]? ∧
    (filterPackagesToTestHeap h cr pr).1[pr]? = h[pr]? ∧
    (filterPackagesToTestHeap h cr pr).2 ≠ cr ∧
    (filterPackagesToTestHeap h cr pr).2 ≠ pr := by
  have hcr1 : cr < (h ++ [[]]).length := by
    simp only [List.length_append, List.length_cons, List.length_nil]
    omega
  have hpr1 : pr < (h ++ [[]]).length := by
    simp only [List.length_append, List.length_cons, List.length_nil]
    omega
  unfold filterPackagesToTestHeap
  dsimp only
  refine ⟨?_, ?_, ?_, ?_⟩
  · rw [List.getElem?_append_left hcr1, List.getElem?_append_left hcr]
  · rw [List.getElem?_append_left hpr1, List.getElem?_append_left hpr]
  · rw [filterGoRef_eq]
    have hl : (h ++ [[]]).length = h.length + 1 := by simp
    split
    · rw [hl]; omega
    · omega
  · rw [filterGoRef_eq]
    have hl : (h ++ [[]]).length = h.length + 1 := by simp
    split
    · rw [hl]; omega
    · omega

/-- C9 witness: a two-cell heap holding the changed-file list and the
candidate list; both cells are preserved and the result is a fresh
reference. -/
theorem c9_filter_frame_witness :
    (filterPackagesToTestHeap [["BaseTools/foo.c"], ["PkgA"]] 0 1).1[0]? =
      [["BaseTools/foo.c"], ["PkgA"]][0]? ∧
    (filterPackagesToTestHeap [["BaseTools/foo.c"], ["PkgA"]] 0 1).1[1]? =
      [["BaseTools/foo.c"], ["PkgA"]][1]? ∧
    (filterPackagesToTestHeap [["BaseTools/foo.c"], ["PkgA"]] 0 1).2 ≠ 0 ∧
    (filterPackagesToTestHeap [["BaseTools/foo.c"], ["PkgA"]] 0 1).2 ≠ 1 :=
  c9_filter_frame [["BaseTools/foo.c"], ["PkgA"]] 0 1 (by decide) (by decide)
